import Mathlib

/-
Shallow embedding of the ramupload staged-transfer pipeline
(src/ramupload/core.py and src/ramupload/upload.py).

Paths are lists of characters; the filesystem is an explicit list of
existing paths threaded through each operation.  External commands
(rsync, mount_smbfs, umount) are modelled by their exit status, supplied
as parameters.  Python exceptions are modelled with `Except PyErr`.
-/

/-- A filesystem path, as the list of its characters (`os.path` strings). -/
abbrev FsPath := List Char

/-- The path separator `os.path.sep` on the POSIX platforms the tool targets. -/
def sep : Char := '/'

/-- Embedding of `os.path.join(a, b)` for two components (posixpath.join):
if `b` is absolute it replaces `a`; otherwise `a` and `b` are joined,
inserting a separator unless `a` is empty or already ends with one. -/
def osJoin (a b : FsPath) : FsPath :=
  if b.head? = some sep then b
  else if a = [] then b
  else if a.getLast? = some sep then a ++ b
  else a ++ sep :: b

/-- Decimal digits of a natural number, as `"{:d}".format(n)` renders it. -/
def natChars (n : Nat) : FsPath := Nat.toDigits 10 n

/-- The directory name `"session_{:d}".format(session)`. -/
def sessionName (session : Nat) : FsPath := "session_".data ++ natChars session

/-- Embedding of `core.get_session_path(subject, experiment, session, path)`:
`osp.join(path, experiment, subject, "session_{:d}".format(session))`. -/
def get_session_path (subject experiment : FsPath) (session : Nat) (path : FsPath) : FsPath :=
  osJoin (osJoin (osJoin path experiment) subject) (sessionName session)

/-- The configuration and identity carried by `upload.Uploader`:
subject ID, the data root, and the (expanded) transferred-data directory. -/
structure Uploader where
  subject : FsPath
  dataroot : FsPath
  transferredDir : FsPath
deriving DecidableEq

/-- Embedding of `Uploader.get_session_dir(experiment, session)`:
`osp.join(self.dataroot, experiment, self.subject, "session_{:d}".format(session))`. -/
def Uploader.get_session_dir (u : Uploader) (experiment : FsPath) (session : Nat) : FsPath :=
  osJoin (osJoin (osJoin u.dataroot experiment) u.subject) (sessionName session)

/-- Embedding of `core.get_sessions(subject, experiment, exclude_uploaded, path)`.
The loop `for session in range(20)` appends `session` whenever
`glob(osp.join(subdir, "*.*log"))` is non-empty; the glob test is modelled by
the oracle `globHasLog` on the session directory.  The `exclude_uploaded`
parameter is accepted but never used by the body (docstring: not yet
implemented). -/
def get_sessions (subject experiment : FsPath) (exclude_uploaded : Bool) (path : FsPath)
    (globHasLog : FsPath → Bool) : List Nat :=
  (List.range 20).filter (fun session => globHasLog (get_session_path subject experiment session path))

/-- Python exceptions raised by the embedded code, with the spec's error
taxonomy noted: `AssertionError` (from `assert osp.exists(src)`) and the
`OSError` of `upload_imaging` are the spec's `NotFoundError`;
`CalledProcessError` is the spec's `TransferFailure` (sync) or `MountError`
(mount); `TypeError` is raised by `osp.getmtime()` called without its
argument. -/
inductive PyErr where
  | assertionError
  | osError
  | calledProcessError (code : Nat)
  | typeError
deriving DecidableEq

/-- Whether an exception is the spec taxonomy's `NotFoundError`
(missing source path or data root). -/
def PyErr.isNotFound : PyErr → Bool
  | .assertionError => true
  | .osError => true
  | _ => false

/-- Python return values of the pipeline operations, as the `log` decorator
sees them: `None` (no return statement), a bool, or an int (an exit code). -/
inductive PyVal where
  | none
  | bool (b : Bool)
  | int (n : Nat)
deriving DecidableEq

/-- Python truthiness, used by `if successful:` in the `log` decorator and by
`if self.rsync(...)` in `upload_experiment_data`. -/
def PyVal.truthy : PyVal → Bool
  | .none => false
  | .bool b => b
  | .int n => n != 0

/-- One record of the audit log `upload_log`: an info record
`"<op> successfully completed"`, an error record `"<op> failed!"`, or an
error record `"Uncaught exception from <op>"`. -/
inductive LogRecord where
  | info (op : String)
  | errorFailed (op : String)
  | errorExc (op : String)
deriving DecidableEq

/-- Whether a record is an info record (one claiming success). -/
def LogRecord.isInfo : LogRecord → Bool
  | .info _ => true
  | _ => false

/-- The single record the `log` decorator emits for one invocation of the
wrapped function: info when the return value is truthy, `"failed!"` when it
is falsy, and `"Uncaught exception"` (logged before re-raising) when the
wrapped function raised. -/
def logRecord (op : String) (r : Except PyErr PyVal) : LogRecord :=
  match r with
  | .ok v => if v.truthy then .info op else .errorFailed op
  | .error _ => .errorExc op

/-- The trailing-slash normalization of `Uploader.rsync` (lines 94-95):
`if not src.endswith(osp.sep): src += osp.sep`. -/
def normalizeSrc (src : FsPath) : FsPath :=
  if src.getLast? = some sep then src else src ++ [sep]

/-- The number of consecutive separators at the end of a path. -/
def trailingSeps (p : FsPath) : Nat :=
  ((p.reverse.takeWhile (fun c => c == sep))).length

/-- The arguments of the external rsync command as `Uploader.rsync` builds
them: the value substituted for the src placeholder, and whether the local
command template (`rsync_local`, chosen when `osp.exists(dest)`) or the
remote one (`rsync_remote`) was used. -/
structure RsyncInvocation where
  srcArg : FsPath
  localTemplate : Bool
deriving DecidableEq

/-- Embedding of the body of `Uploader.rsync(src, dest)`:
`assert osp.exists(src)` (AssertionError when `src` is missing), the
trailing-slash normalization, the local/remote template choice on
`osp.exists(dest)`, then `check_call` on the command — which raises
`CalledProcessError` on a non-zero exit status `syncExit` and returns the
int `0` otherwise.  `fs` is the list of existing paths. -/
def rsyncBody (syncExit : Nat) (fs : List FsPath) (src dest : FsPath) :
    Except PyErr (PyVal × RsyncInvocation) :=
  if src ∈ fs then
    if syncExit = 0 then
      .ok (.int 0, { srcArg := normalizeSrc src, localTemplate := decide (dest ∈ fs) })
    else .error (.calledProcessError syncExit)
  else .error .assertionError

/-- `Uploader.rsync` as decorated by `log`: the body's outcome together with
the single audit-log record the decorator emits for this invocation. -/
def rsync (syncExit : Nat) (fs : List FsPath) (src dest : FsPath) :
    Except PyErr PyVal × List LogRecord :=
  let r := (rsyncBody syncExit fs src dest).map (fun p => p.1)
  (r, [logRecord "rsync" r])

/-- Embedding of `Uploader.upload_imaging(src, dest)` (decorated by `log`):
raises `OSError` unless `osp.isdir(src)` (`dirs` lists the directory paths),
otherwise delegates to `self.rsync` — whose own audit record is also
emitted — and the decorator then logs this invocation's outcome. -/
def upload_imaging (syncExit : Nat) (fs dirs : List FsPath) (src dest : FsPath) :
    Except PyErr PyVal × List LogRecord :=
  let inner : Except PyErr PyVal × List LogRecord :=
    if src ∈ dirs then rsync syncExit fs src dest
    else (.error .osError, [])
  (inner.1, inner.2 ++ [logRecord "upload_imaging" inner.1])

deriving instance DecidableEq for Except

/-- Outcome of one use of the `Uploader._mount_host_pc` context manager:
what escapes the with-statement, whether `umount` was invoked, and whether
an unmount failure was caught and merely printed. -/
structure MountOutcome where
  result : Except PyErr Unit
  unmountAttempted : Bool
  unmountErrorLogged : Bool
deriving DecidableEq

/-- Embedding of `Uploader._mount_host_pc(mount_point)` run around a scope
body.  `mountOk` / `umountOk` tell whether the external `mount_smbfs` /
`umount` commands succeed; `body` is the outcome of the with-block.  In the
source, a failing `mount_smbfs` raises `CalledProcessError` which is caught,
printed and re-raised; the `umount` call sits after the try/except — not in
a finally — so it runs only when the body returned normally, and a failing
`umount` is caught and only printed. -/
def mount_host_pc (mountOk umountOk : Bool) (body : Except PyErr Unit) : MountOutcome :=
  if mountOk then
    match body with
    | .ok () =>
        if umountOk then { result := .ok (), unmountAttempted := true, unmountErrorLogged := false }
        else { result := .ok (), unmountAttempted := true, unmountErrorLogged := true }
    | .error e => { result := .error e, unmountAttempted := false, unmountErrorLogged := false }
  else { result := .error (.calledProcessError 64), unmountAttempted := false, unmountErrorLogged := false }

/-- The experiment name with the on-demand `os.makedirs` special case in
`transfer_host_data`. -/
def ampDet : FsPath := "AmplitudeDetermination".data

/-- The `host_pc` subdirectory name. -/
def hostPcDir : FsPath := "host_pc".data

/-- Outcome of `Uploader.transfer_host_data`: its return value or exception,
the updated filesystem, and how many times `copytree` ran. -/
structure FetchOut where
  result : Except PyErr Bool
  fs : List FsPath
  copies : Nat
deriving DecidableEq

/-- Embedding of the body of `Uploader.transfer_host_data(experiment,
session)`.  The password lookup touches only the user config file, not the
data filesystem, and is not modelled.  `os.makedirs(task_dir)` runs (inside
try/except pass) only for the `AmplitudeDetermination` experiment.  If
`osp.exists(task_transfer_dir)` the function prints and returns `True`
without touching the host PC; otherwise it mounts the host PC inside a
tempdir and runs `copytree(host_dir, task_transfer_dir)` — `mountOk` tells
whether that mount-and-copy succeeds (a failing `mount_smbfs` raises
`CalledProcessError` out of the context manager). -/
def Uploader.transfer_host_data (u : Uploader) (mountOk : Bool) (fs : List FsPath)
    (experiment : FsPath) (session : Nat) : FetchOut :=
  let task_dir := u.get_session_dir experiment session
  let fs1 := if experiment = ampDet then task_dir :: fs else fs
  let task_transfer_dir := osJoin task_dir hostPcDir
  if task_transfer_dir ∈ fs1 then
    { result := .ok true, fs := fs1, copies := 0 }
  else if mountOk then
    { result := .ok true, fs := task_transfer_dir :: fs1, copies := 1 }
  else
    { result := .error (.calledProcessError 64), fs := fs1, copies := 0 }

/-- Outcome of `Uploader.move_eeg_to_transferred`: return value or
exception, the decorator's audit record, and the updated filesystem. -/
structure ArchiveOut where
  result : Except PyErr PyVal
  log : List LogRecord
  fs : List FsPath
deriving DecidableEq

/-- Embedding of `Uploader.move_eeg_to_transferred(experiment, session)`
(decorated by `log`): creates the transferred directory if missing, then
`shutil.move(osp.join(src, 'host_pc'), dest)` — raising when the source
`host_pc` directory is missing.  The function body has no return statement,
so its value is Python `None`. -/
def Uploader.move_eeg_to_transferred (u : Uploader) (fs : List FsPath)
    (experiment : FsPath) (session : Nat) : ArchiveOut :=
  let trans_dir := u.transferredDir
  let fs1 := if trans_dir ∈ fs then fs else trans_dir :: fs
  let src := osJoin (u.get_session_dir experiment session) hostPcDir
  let dest := osJoin (osJoin (osJoin trans_dir u.subject) experiment) (sessionName session)
  if src ∈ fs1 then
    { result := .ok PyVal.none, log := [logRecord "move_eeg_to_transferred" (.ok PyVal.none)],
      fs := dest :: fs1.erase src }
  else
    { result := .error .osError, log := [logRecord "move_eeg_to_transferred" (.error .osError)],
      fs := fs1 }

/-- Outcome of `Uploader.upload_experiment_data`: return value or exception,
the audit records emitted (in order), the updated filesystem, the number of
host copies performed, and whether `move_eeg_to_transferred` was invoked. -/
structure UploadOut where
  result : Except PyErr PyVal
  log : List LogRecord
  fs : List FsPath
  copies : Nat
  archived : Bool
deriving DecidableEq

/-- Embedding of `Uploader.upload_experiment_data(experiment, session,
dest)` (decorated by `log`): runs `transfer_host_data`, then
`if self.rsync(self.get_session_dir(experiment, session), dest):` — a
truthiness test on rsync's return value — calling
`move_eeg_to_transferred` and returning `True` in the if-branch and
returning `False` otherwise.  Exceptions from any step propagate after
being logged by each decorator on the way out. -/
def Uploader.upload_experiment_data (u : Uploader) (mountOk : Bool) (syncExit : Nat)
    (fs : List FsPath) (experiment : FsPath) (session : Nat) (dest : FsPath) : UploadOut :=
  let t := u.transfer_host_data mountOk fs experiment session
  let tlog := [logRecord "transfer_host_data" (t.result.map PyVal.bool)]
  match t.result with
  | .error e =>
      { result := .error e, log := tlog ++ [logRecord "upload_experiment_data" (.error e)],
        fs := t.fs, copies := t.copies, archived := false }
  | .ok _ =>
      let r := rsync syncExit t.fs (u.get_session_dir experiment session) dest
      match r.1 with
      | .error e =>
          { result := .error e,
            log := tlog ++ r.2 ++ [logRecord "upload_experiment_data" (.error e)],
            fs := t.fs, copies := t.copies, archived := false }
      | .ok v =>
          if v.truthy then
            let m := u.move_eeg_to_transferred t.fs experiment session
            match m.result with
            | .error e =>
                { result := .error e,
                  log := tlog ++ r.2 ++ m.log ++ [logRecord "upload_experiment_data" (.error e)],
                  fs := m.fs, copies := t.copies, archived := true }
            | .ok _ =>
                { result := .ok (.bool true),
                  log := tlog ++ r.2 ++ m.log
                    ++ [logRecord "upload_experiment_data" (.ok (.bool true))],
                  fs := m.fs, copies := t.copies, archived := true }
          else
            { result := .ok (.bool false),
              log := tlog ++ r.2 ++ [logRecord "upload_experiment_data" (.ok (.bool false))],
              fs := t.fs, copies := t.copies, archived := false }

/-- Embedding of `osp.getmtime()` exactly as `core.remove_transferred_eeg_data`
calls it — with no filename argument — which raises `TypeError`. -/
def getmtime_noarg : Except PyErr Nat := .error .typeError

/-- Embedding of `core.remove_transferred_eeg_data(path, lifetime)`: the loop
`for path_ in os.listdir(path)` whose first statement is
`age = osp.getmtime()`.  Because that call raises `TypeError`, the age
comparison against `lifetime` and the `shutil.rmtree` that follow it in the
source are unreachable; the returned list of removed entries is therefore
empty when the function returns at all. -/
def remove_transferred_eeg_data (listing : List FsPath) (lifetime : Nat) :
    Except PyErr (List FsPath) :=
  match listing with
  | [] => .ok []
  | _entry :: rest => do
      let _age ← getmtime_noarg
      remove_transferred_eeg_data rest lifetime

/-- A concrete uploader configuration used by the concrete evaluations. -/
def u0 : Uploader :=
  { subject := "R0000X".data, dataroot := "data".data, transferredDir := "trans".data }

/-- The session directory of experiment FR1, session 0 for `u0`. -/
def sessdir0 : FsPath := u0.get_session_dir "FR1".data 0

/-- C10: `get_sessions` returns the same list of session indices whichever
value the `exclude_uploaded` flag takes: the flag is accepted at the public
interface but never used by the body. -/
theorem get_sessions_independent_of_flag (subject experiment path : FsPath)
    (g : FsPath → Bool) (b1 b2 : Bool) :
    get_sessions subject experiment b1 path g =
      get_sessions subject experiment b2 path g := rfl

/-- C5: at a concrete input — an archive listing with the single entry
`R0000X` and lifetime 30 — the retention sweep raises `TypeError` (from
`osp.getmtime()` called without its filename argument) instead of deleting
exactly the entries strictly older than the lifetime. -/
theorem remove_transferred_eeg_data_raises :
    remove_transferred_eeg_data ["R0000X".data] 30 = .error .typeError := rfl

/-- C2 (counterexample): at a concrete input with an existing source and the
sync command exiting with status 0, `rsync` returns the int `0` —
`check_call`'s return value, a falsy value that is not the boolean `True`
the claim promises. -/
theorem rsync_returns_zero_not_true :
    (rsync 0 ["src".data] "src".data "dst".data).1 = .ok (PyVal.int 0) ∧
    (PyVal.int 0).truthy = false ∧ PyVal.int 0 ≠ PyVal.bool true := by decide

/-- C2 (amended): for every existing source, the sync operation invokes the
external synchronization command and returns the command's exit status 0
itself — a falsy int, the value the repository's own test treats as
non-failure — when the command exits with code 0; any non-zero exit code is
raised as `CalledProcessError` (the spec's `TransferFailure`) rather than
returned as a value. -/
theorem rsync_exit_code_semantics (syncExit : Nat) (fs : List FsPath) (src dest : FsPath)
    (h : src ∈ fs) :
    (syncExit = 0 → (rsync syncExit fs src dest).1 = .ok (PyVal.int 0)) ∧
    (syncExit ≠ 0 →
      (rsync syncExit fs src dest).1 = .error (.calledProcessError syncExit)) := by
  constructor
  · intro h0; subst h0; simp [rsync, rsyncBody, h, Except.map]
  · intro hne; simp [rsync, rsyncBody, h, hne, Except.map]

/-- Witness for C2 (amended) at concrete inputs. -/
theorem rsync_exit_code_semantics_witness :
    (rsync 0 ["a".data] "a".data "b".data).1 = .ok (PyVal.int 0) ∧
    (rsync 7 ["a".data] "a".data "b".data).1 = .error (.calledProcessError 7) :=
  ⟨(rsync_exit_code_semantics 0 ["a".data] "a".data "b".data (by decide)).1 rfl,
   (rsync_exit_code_semantics 7 ["a".data] "a".data "b".data (by decide)).2 (by decide)⟩

/-- C6: at a concrete input where the archive move succeeds — the session's
`host_pc` directory exists and is moved — `move_eeg_to_transferred` returns
Python `None` (it has no return statement), so the `log` decorator's
truthiness test records the successful invocation as
`"move_eeg_to_transferred failed!"`: the audit record does not correctly
record the operation's success. -/
theorem move_eeg_success_logged_as_failure :
    (u0.move_eeg_to_transferred [osJoin sessdir0 hostPcDir] "FR1".data 0).result
        = .ok PyVal.none ∧
    (u0.move_eeg_to_transferred [osJoin sessdir0 hostPcDir] "FR1".data 0).log
        = [LogRecord.errorFailed "move_eeg_to_transferred"] := by decide

/-- C1: at a concrete input where the host fetch succeeds and the sync
command exits with status 0 (a successful sync), `upload_experiment_data`
returns `False` and never invokes `move_eeg_to_transferred`: `rsync`
returns `check_call`'s `0`, which is falsy, so the
`if self.rsync(...)` branch that archives and returns `True` is
unreachable — contrary to the claim and to the method's own docstring
listing step 3. -/
theorem upload_experiment_data_never_archives :
    (u0.upload_experiment_data true 0 [sessdir0] "FR1".data 0 "dst".data).result
        = .ok (PyVal.bool false) ∧
    (u0.upload_experiment_data true 0 [sessdir0] "FR1".data 0 "dst".data).archived
        = false := by decide

/-- C3 (counterexample): when the mount succeeds and the scope body raises
(here an `OSError` from the copy), the unmount is never attempted: the
`umount` call sits after the try/except, not in a finally, so it is skipped
on an exceptional exit from the scope. -/
theorem mount_host_pc_no_unmount_on_raise :
    (mount_host_pc true true (.error .osError)).unmountAttempted = false := rfl

/-- C3 (amended): the scoped mount attempts the unmount only when the scope
body completes normally — when the body raises, the exception propagates
with no unmount attempt; on the normal path an unmount failure is logged
but never re-raised (the scope still exits normally); and a mount
acquisition failure signals `MountError` (`CalledProcessError`) with no
unmount attempted and no dangling mount. -/
theorem mount_host_pc_cleanup (mountOk umountOk : Bool) (body : Except PyErr Unit) :
    (mountOk = false → mount_host_pc mountOk umountOk body =
      { result := .error (.calledProcessError 64), unmountAttempted := false,
        unmountErrorLogged := false }) ∧
    (mountOk = true → body = .ok () →
      (mount_host_pc mountOk umountOk body).unmountAttempted = true ∧
      (mount_host_pc mountOk umountOk body).result = .ok () ∧
      (umountOk = false →
        (mount_host_pc mountOk umountOk body).unmountErrorLogged = true)) ∧
    (∀ e, mountOk = true → body = .error e →
      mount_host_pc mountOk umountOk body =
        { result := .error e, unmountAttempted := false,
          unmountErrorLogged := false }) := by
  refine ⟨fun hm => ?_, fun hm hb => ?_, fun e hm hb => ?_⟩
  · subst hm; rfl
  · subst hm; subst hb; cases umountOk <;> simp [mount_host_pc]
  · subst hm; subst hb; rfl

/-- Witness for C3 (amended) at concrete inputs: a successful mount with a
normally completing body attempts the unmount, and a failing unmount is
logged while the scope still exits normally. -/
theorem mount_host_pc_cleanup_witness :
    (mount_host_pc true false (.ok ())).unmountAttempted = true ∧
    (mount_host_pc true false (.ok ())).result = .ok () ∧
    (mount_host_pc true false (.ok ())).unmountErrorLogged = true := by
  have h := (mount_host_pc_cleanup true false (.ok ())).2.1 rfl rfl
  exact ⟨h.1, h.2.1, h.2.2 rfl⟩


/-- The idempotency-guarded step at the heart of `transfer_host_data`, on an
arbitrary filesystem basis: skip when the target exists, copy when the
mount-and-copy succeeds, raise otherwise.  `Uploader.transfer_host_data`
is definitionally this step applied after the `AmplitudeDetermination`
makedirs. -/
def transferStep (ttd : FsPath) (m : Bool) (fs : List FsPath) : FetchOut :=
  if ttd ∈ fs then { result := .ok true, fs := fs, copies := 0 }
  else if m then { result := .ok true, fs := ttd :: fs, copies := 1 }
  else { result := .error (.calledProcessError 64), fs := fs, copies := 0 }

/-- `transfer_host_data` is the guarded step on the post-makedirs basis. -/
theorem transfer_eq_step (u : Uploader) (m : Bool) (fs : List FsPath)
    (experiment : FsPath) (session : Nat) :
    u.transfer_host_data m fs experiment session =
      transferStep (osJoin (u.get_session_dir experiment session) hostPcDir) m
        (if experiment = ampDet then u.get_session_dir experiment session :: fs else fs) := rfl

/-- The guarded step is a skip when the target already exists. -/
theorem transferStep_mem (ttd : FsPath) (m : Bool) (fs : List FsPath) (h : ttd ∈ fs) :
    transferStep ttd m fs = { result := .ok true, fs := fs, copies := 0 } := by
  unfold transferStep
  rw [if_pos h]

/-- The guarded step performs at most one copy. -/
theorem transferStep_copies (ttd : FsPath) (m : Bool) (fs : List FsPath) :
    (transferStep ttd m fs).copies ≤ 1 := by
  unfold transferStep
  split_ifs <;> simp

/-- After a step that returned `True`, the target exists. -/
theorem transferStep_ok_mem (ttd : FsPath) (m : Bool) (fs : List FsPath)
    (h : (transferStep ttd m fs).result = .ok true) : ttd ∈ (transferStep ttd m fs).fs := by
  unfold transferStep at h ⊢
  split_ifs at h ⊢ with h1 h2
  · exact h1
  · exact List.mem_cons_self _ _

/-- Membership is preserved by the conditional makedirs cons. -/
theorem mem_maybe_cons {x td : FsPath} {c : Prop} [Decidable c] {fs : List FsPath}
    (h : x ∈ fs) : x ∈ (if c then td :: fs else fs) := by
  split
  · exact List.mem_cons_of_mem _ h
  · exact h

/-- C4: fetching host data is idempotent.  When the session's `host_pc`
subdirectory already exists, the call performs no copy and still returns
`True`; two successive calls perform the remote copy at most once in total;
and after a first call that returned `True`, the second call is a no-op
that performs no copy and still returns `True`. -/
theorem transfer_host_data_idempotent (u : Uploader) (m1 m2 : Bool) (fs : List FsPath)
    (experiment : FsPath) (session : Nat) :
    (osJoin (u.get_session_dir experiment session) hostPcDir ∈ fs →
      (u.transfer_host_data m1 fs experiment session).copies = 0 ∧
      (u.transfer_host_data m1 fs experiment session).result = .ok true) ∧
    ((u.transfer_host_data m1 fs experiment session).copies +
      (u.transfer_host_data m2 (u.transfer_host_data m1 fs experiment session).fs
          experiment session).copies ≤ 1) ∧
    ((u.transfer_host_data m1 fs experiment session).result = .ok true →
      (u.transfer_host_data m2 (u.transfer_host_data m1 fs experiment session).fs
          experiment session).copies = 0 ∧
      (u.transfer_host_data m2 (u.transfer_host_data m1 fs experiment session).fs
          experiment session).result = .ok true) := by
  simp only [transfer_eq_step]
  refine ⟨fun hmem => ?_, ?_, fun hok => ?_⟩
  · rw [transferStep_mem _ _ _ (mem_maybe_cons hmem)]
    exact ⟨rfl, rfl⟩
  · by_cases hm : osJoin (u.get_session_dir experiment session) hostPcDir ∈
        (if experiment = ampDet then u.get_session_dir experiment session :: fs else fs)
    · rw [transferStep_mem _ _ _ hm]
      simpa using transferStep_copies _ m2 _
    · cases m1 with
      | true =>
          have hok : (transferStep (osJoin (u.get_session_dir experiment session) hostPcDir) true
              (if experiment = ampDet then u.get_session_dir experiment session :: fs else fs)).result
              = .ok true := by
            unfold transferStep
            rw [if_neg hm]
            rfl
          have hmem2 := transferStep_ok_mem _ _ _ hok
          rw [transferStep_mem _ m2 _ (mem_maybe_cons hmem2)]
          unfold transferStep
          rw [if_neg hm]
          simp
      | false =>
          have hfirst : transferStep (osJoin (u.get_session_dir experiment session) hostPcDir) false
              (if experiment = ampDet then u.get_session_dir experiment session :: fs else fs)
              = { result := .error (.calledProcessError 64),
                  fs := if experiment = ampDet then u.get_session_dir experiment session :: fs else fs,
                  copies := 0 } := by
            unfold transferStep
            rw [if_neg hm]
            rfl
          rw [hfirst]
          simpa using transferStep_copies _ m2 _
  · have hmem2 := transferStep_ok_mem _ _ _ hok
    rw [transferStep_mem _ m2 _ (mem_maybe_cons hmem2)]
    exact ⟨rfl, rfl⟩

/-- Witness for C4 at a concrete input where the `host_pc` subdirectory
already exists: the call performs no copy and returns `True`. -/
theorem transfer_host_data_idempotent_witness :
    (u0.transfer_host_data true [osJoin sessdir0 hostPcDir] "FR1".data 0).copies = 0 ∧
    (u0.transfer_host_data true [osJoin sessdir0 hostPcDir] "FR1".data 0).result
      = .ok true :=
  (transfer_host_data_idempotent u0 true true [osJoin sessdir0 hostPcDir]
    "FR1".data 0).1 (List.mem_singleton.mpr rfl)

/-- C7: for every source path that does not exist, `rsync` fails with the
`AssertionError` of `assert osp.exists(src)` — the spec taxonomy's
`NotFoundError` — and `upload_imaging`, the upload operation built on it,
fails with its `OSError` (also `NotFoundError`); in both cases no
audit-log record claiming success is emitted for the invocation. -/
theorem upload_missing_source_not_found (syncExit : Nat) (fs dirs : List FsPath)
    (src dest : FsPath) (hfs : src ∉ fs) (hdir : src ∉ dirs) :
    (rsync syncExit fs src dest).1 = .error .assertionError ∧
    PyErr.assertionError.isNotFound = true ∧
    (∀ r ∈ (rsync syncExit fs src dest).2, r.isInfo = false) ∧
    (upload_imaging syncExit fs dirs src dest).1 = .error .osError ∧
    PyErr.osError.isNotFound = true ∧
    (∀ r ∈ (upload_imaging syncExit fs dirs src dest).2, r.isInfo = false) := by
  have hr : rsync syncExit fs src dest =
      (.error .assertionError, [LogRecord.errorExc "rsync"]) := by
    simp [rsync, rsyncBody, hfs, Except.map, logRecord]
  have hu : upload_imaging syncExit fs dirs src dest =
      (.error .osError, [LogRecord.errorExc "upload_imaging"]) := by
    simp [upload_imaging, hdir, logRecord]
  refine ⟨by rw [hr], rfl, ?_, by rw [hu], rfl, ?_⟩
  · rw [hr]
    intro r hrr
    rw [List.mem_singleton.mp hrr]
    rfl
  · rw [hu]
    intro r hrr
    rw [List.mem_singleton.mp hrr]
    rfl

/-- Witness for C7 at a concrete missing source. -/
theorem upload_missing_source_not_found_witness :
    (rsync 0 [] "gone".data "dst".data).1 = .error .assertionError ∧
    (upload_imaging 0 [] [] "gone".data "dst".data).1 = .error .osError := by
  have h := upload_missing_source_not_found 0 [] [] "gone".data "dst".data
    (by decide) (by decide)
  exact ⟨h.1, h.2.2.2.1⟩

/-- C8: for every source path that does not already end with the path
separator, the normalization `src += osp.sep` yields a source that ends
with exactly one separator, and whenever the rsync command is actually
invoked, the source argument substituted into the command template ends
with exactly one separator. -/
theorem rsync_src_trailing_sep (syncExit : Nat) (fs : List FsPath) (src dest : FsPath)
    (h : src.getLast? ≠ some sep) :
    trailingSeps (normalizeSrc src) = 1 ∧
    (∀ v inv, rsyncBody syncExit fs src dest = .ok (v, inv) →
      trailingSeps inv.srcArg = 1) := by
  have key : trailingSeps (normalizeSrc src) = 1 := by
    unfold normalizeSrc
    rw [if_neg h]
    unfold trailingSeps
    rw [List.reverse_append]
    simp only [List.reverse_cons, List.reverse_nil, List.nil_append, List.singleton_append]
    rw [List.takeWhile_cons]
    have hsep : (sep == sep) = true := by decide
    rw [hsep]
    have htail : List.takeWhile (fun c => c == sep) src.reverse = [] := by
      cases hrev : src.reverse with
      | nil => rfl
      | cons c t =>
          have hc : src.getLast? = some c := by
            rw [← List.head?_reverse, hrev]
            rfl
          have hcne : (c == sep) = false := by
            rw [beq_eq_false_iff_ne]
            intro hcc
            exact h (by rw [hc, hcc])
          rw [List.takeWhile_cons, hcne]
          simp
    rw [htail]
    simp
  refine ⟨key, fun v inv hok => ?_⟩
  unfold rsyncBody at hok
  by_cases hmem : src ∈ fs
  · rw [if_pos hmem] at hok
    by_cases hz : syncExit = 0
    · rw [if_pos hz] at hok
      have hinv : inv = { srcArg := normalizeSrc src, localTemplate := decide (dest ∈ fs) } := by
        cases hok
        rfl
      rw [hinv]
      exact key
    · rw [if_neg hz] at hok
      cases hok
  · rw [if_neg hmem] at hok
    cases hok

/-- Witness for C8 at a concrete source without a trailing separator. -/
theorem rsync_src_trailing_sep_witness :
    trailingSeps (normalizeSrc "data/FR1".data) = 1 :=
  (rsync_src_trailing_sep 0 [] "data/FR1".data "dst".data (by decide)).1

/-- `osp.join` appends with a single inserted separator whenever the left
part is non-empty without a trailing separator and the right part is not
absolute. -/
theorem osJoin_eq_append (a b : FsPath) (ha : a ≠ []) (haL : a.getLast? ≠ some sep)
    (hb : b.head? ≠ some sep) : osJoin a b = a ++ sep :: b := by
  unfold osJoin
  rw [if_neg hb, if_neg ha, if_neg haL]

/-- The last character of a separator-joined path is the last character of
its right part. -/
theorem getLast_sep_append (a b : FsPath) (hb : b ≠ []) :
    (a ++ sep :: b).getLast? = b.getLast? := by
  rw [List.getLast?_append_cons]
  have hsb : sep :: b = [sep] ++ b := rfl
  rw [hsb, List.getLast?_append_of_ne_nil _ hb]

/-- C9: the session-directory computation is a pure function of
(root, experiment, subject, session) following the convention
`root/experiment/subject/session_<n>`: when the components are non-empty,
not absolute and without trailing separators, `get_session_path` is exactly
the root followed by experiment, subject and `session_<n>`, each joined by
one separator; equal inputs yield identical paths, and the uploader's
`get_session_dir` computes the same path from its stored subject and data
root. -/
theorem get_session_path_convention (root e s : FsPath) (n : Nat)
    (hroot : root ≠ []) (hrootL : root.getLast? ≠ some sep)
    (he : e ≠ []) (heH : e.head? ≠ some sep) (heL : e.getLast? ≠ some sep)
    (hs : s ≠ []) (hsH : s.head? ≠ some sep) (hsL : s.getLast? ≠ some sep) :
    get_session_path s e n root =
      root ++ sep :: e ++ sep :: s ++ sep :: sessionName n ∧
    (∀ root2 e2 s2 n2, root2 = root → e2 = e → s2 = s → n2 = n →
      get_session_path s2 e2 n2 root2 = get_session_path s e n root) ∧
    (∀ u : Uploader, u.dataroot = root → u.subject = s →
      u.get_session_dir e n = get_session_path s e n root) := by
  have hsessH : (sessionName n).head? ≠ some sep := by
    have hss : (sessionName n).head? = some 's' := rfl
    rw [hss]
    intro hcon
    exact absurd (Option.some.inj hcon) (by decide)
  have j1 : osJoin root e = root ++ sep :: e := osJoin_eq_append root e hroot hrootL heH
  have j1ne : root ++ sep :: e ≠ [] := by simp
  have j1L : (root ++ sep :: e).getLast? = e.getLast? := getLast_sep_append root e he
  have j2 : osJoin (root ++ sep :: e) s = (root ++ sep :: e) ++ sep :: s :=
    osJoin_eq_append _ s j1ne (by rw [j1L]; exact heL) hsH
  have j2ne : (root ++ sep :: e) ++ sep :: s ≠ [] := by simp
  have j2L : ((root ++ sep :: e) ++ sep :: s).getLast? = s.getLast? :=
    getLast_sep_append _ s hs
  have j3 : osJoin ((root ++ sep :: e) ++ sep :: s) (sessionName n) =
      ((root ++ sep :: e) ++ sep :: s) ++ sep :: sessionName n :=
    osJoin_eq_append _ _ j2ne (by rw [j2L]; exact hsL) hsessH
  refine ⟨?_, fun root2 e2 s2 n2 h1 h2 h3 h4 => by rw [h1, h2, h3, h4],
    fun u hu1 hu2 => ?_⟩
  · unfold get_session_path
    rw [j1, j2, j3]
  · unfold Uploader.get_session_dir get_session_path
    rw [hu1, hu2]

/-- Witness for C9 at concrete components. -/
theorem get_session_path_convention_witness :
    get_session_path "R0000X".data "FR1".data 2 "data".data =
      "data".data ++ sep :: "FR1".data ++ sep :: "R0000X".data ++ sep :: sessionName 2 :=
  (get_session_path_convention "data".data "FR1".data "R0000X".data 2
    (by decide) (by decide) (by decide) (by decide) (by decide)
    (by decide) (by decide) (by decide)).1
